import Mathlib

/-!
Verification of the GPS scintillation merge/transform/alert pipeline.

The development shallowly embeds the analytic core of the repository:

* `backend/analyzer.py` — `GPSScintillationAnalyzer.merge_data`,
  `transform_to_new_format`, `analyze_statistics`,
  `create_transformed_data_response`;
* `data/automated_processor.py` — `AutomatedGPSProcessor.generate_s4c_alert_file`,
  `save_as_csv`, `run_processing_cycle`.

Modelling conventions:

* Timestamps are `Nat` (seconds since an arbitrary epoch).  The code stores
  normalized times as fixed-format strings `YYYY-MM-DD HH:MM:SS` and re-parses
  them with `pd.to_datetime`; the fixed format is order-isomorphic to the
  underlying instant, so `Nat` faithfully captures comparisons, maxima and
  day differences.
* Cell values are `ℚ`; a pandas `NaN` cell is `Option.none`.
* A pandas `DataFrame.loc[t, s]` scalar lookup raises `KeyError` when the row
  label `t` or the column label `s` is absent; this is modelled by
  `Except String`, with `.error` standing for the raised exception.
-/

/-- Raw input matrix (one of latitude / longitude / S4C): a row index of
timestamps, a list of satellite columns, and the stored cell contents, where
`none` models a NaN cell.  Mirrors the `pd.DataFrame` produced by
`GPSScintillationAnalyzer.load_data`. -/
structure RawMatrix where
  index : List Nat
  cols : List String
  entry : Nat → String → Option ℚ

/-- Merged record produced by `merge_data`: all fields non-missing by
construction. -/
structure MergedRecord where
  timestamp : Nat
  satellite : String
  latitude : ℚ
  longitude : ℚ
  s4c : ℚ
deriving DecidableEq

/-- Active satellites (`load_data`): columns of the latitude matrix that have
at least one non-missing value. -/
def activeSatellites (m : RawMatrix) : List String :=
  m.cols.filter (fun s => m.index.any (fun t => (m.entry t s).isSome))

/-- A label pair is present in the matrix (so `.loc` succeeds on it). -/
def hasLabels (m : RawMatrix) (t : Nat) (s : String) : Prop :=
  t ∈ m.index ∧ s ∈ m.cols

instance (m : RawMatrix) (t : Nat) (s : String) : Decidable (hasLabels m t s) := by
  unfold hasLabels; infer_instance

/-- Scalar `.loc[t, s]` lookup: `KeyError` when a label is absent, otherwise
the stored cell (possibly NaN = `none`). -/
def RawMatrix.loc (m : RawMatrix) (t : Nat) (s : String) : Except String (Option ℚ) :=
  if hasLabels m t s then .ok (m.entry t s) else .error "KeyError"

/-- One iteration of the inner loop of `merge_data`: look up the three cells
(each lookup may raise), then emit a record iff all three are non-missing. -/
def mergeCell (lat lon s4c : RawMatrix) (t : Nat) (s : String) :
    Except String (Option MergedRecord) :=
  match lat.loc t s, lon.loc t s, s4c.loc t s with
  | .error e, _, _ => .error e
  | .ok _, .error e, _ => .error e
  | .ok _, .ok _, .error e => .error e
  | .ok la, .ok lo, .ok sc =>
    match la, lo, sc with
    | some a, some o, some c => .ok (some ⟨t, s, a, o, c⟩)
    | _, _, _ => .ok none

/-- Inner loop of `merge_data` over the active satellites at a fixed
timestamp; an exception raised at one satellite propagates before later
satellites are visited. -/
def mergeSats (lat lon s4c : RawMatrix) (t : Nat) : List String → Except String (List MergedRecord)
  | [] => .ok []
  | s :: rest =>
    match mergeCell lat lon s4c t s, mergeSats lat lon s4c t rest with
    | .error e, _ => .error e
    | .ok _, .error e => .error e
    | .ok (some r), .ok rs => .ok (r :: rs)
    | .ok none, .ok rs => .ok rs

/-- Outer loop of `merge_data` over the latitude index, in index order. -/
def mergeRows (lat lon s4c : RawMatrix) : List Nat → Except String (List MergedRecord)
  | [] => .ok []
  | t :: rest =>
    match mergeSats lat lon s4c t (activeSatellites lat), mergeRows lat lon s4c rest with
    | .error e, _ => .error e
    | .ok _, .error e => .error e
    | .ok row, .ok later => .ok (row ++ later)

/-- Embedding of `GPSScintillationAnalyzer.merge_data`: for every timestamp of
the latitude index and every active satellite, look up the three cells and
emit a record iff all three are present.  An absent label raises `KeyError`
(`.error`), exactly as the pandas `.loc` calls do. -/
def merge_data (lat lon s4c : RawMatrix) : Except String (List MergedRecord) :=
  mergeRows lat lon s4c lat.index

/-- Record emitted for one (timestamp, satellite) cell when all labels are
present: `some` iff all three stored values are non-missing. -/
def cellRecord (lat lon s4c : RawMatrix) (t : Nat) (s : String) : Option MergedRecord :=
  match lat.entry t s, lon.entry t s, s4c.entry t s with
  | some a, some o, some c => some ⟨t, s, a, o, c⟩
  | _, _, _ => none

/-- Total description of the merge result, valid when no lookup raises. -/
def mergeTotal (lat lon s4c : RawMatrix) : List MergedRecord :=
  lat.index.flatMap (fun t => (activeSatellites lat).filterMap (cellRecord lat lon s4c t))

/-- Shared-label invariant of §3: every (timestamp, active satellite) pair
visited by the merge is a valid label pair in all three matrices. -/
def compat (lat lon s4c : RawMatrix) : Prop :=
  ∀ t ∈ lat.index, ∀ s ∈ activeSatellites lat,
    hasLabels lat t s ∧ hasLabels lon t s ∧ hasLabels s4c t s

instance (lat lon s4c : RawMatrix) : Decidable (compat lat lon s4c) := by
  unfold compat; infer_instance

/-- Round a rational to six decimal places, ties to even (the numpy default
used by `.round(6)`; the source applies it to binary floats, where exact
decimal ties are vanishingly rare — none of the verified properties depend on
the tie direction). -/
def rnd6 (q : ℚ) : ℚ :=
  let y := q * 1000000
  let f : ℤ := ⌊y⌋
  let r := y - f
  let n : ℤ :=
    if r < 1/2 then f
    else if 1/2 < r then f + 1
    else if f % 2 = 0 then f else f + 1
  (n : ℚ) / 1000000

/-- Normalized (wire/storage format) record, the row shape produced by
`transform_to_new_format` with columns Satellite, Time, S4C, Lat, Lon.  The
source renders `Time` as the fixed-format string `YYYY-MM-DD HH:MM:SS`; here
it stays a `Nat` instant (the format is order-isomorphic, so min/max/day
arithmetic agree). -/
structure NormalizedRecord where
  Satellite : String
  Time : Nat
  S4C : ℚ
  Lat : ℚ
  Lon : ℚ
deriving DecidableEq

/-- Projection of one merged record into the normalized shape (rename plus
rounding to six decimals).  The source's `dropna()` is a no-op here because
every `MergedRecord` field is total by construction. -/
def normalizeRecord (r : MergedRecord) : NormalizedRecord :=
  ⟨r.satellite, r.timestamp, rnd6 r.s4c, rnd6 r.latitude, rnd6 r.longitude⟩

/-- Embedding of `transform_to_new_format`: `None` or empty combined data
yields the empty record list (the source returns an empty frame with the
five canonical columns); otherwise project every merged record. -/
def transform_to_new_format (combined : Option (List MergedRecord)) : List NormalizedRecord :=
  match combined with
  | none => []
  | some recs => recs.map normalizeRecord

/-- Minimum of a list of naturals (only applied to non-empty lists). -/
def natMin : List Nat → Nat
  | [] => 0
  | x :: xs => xs.foldl min x

/-- Maximum of a list of naturals (only applied to non-empty lists). -/
def natMax : List Nat → Nat
  | [] => 0
  | x :: xs => xs.foldl max x

/-- Minimum of a list of rationals (only applied to non-empty lists). -/
def qmin : List ℚ → ℚ
  | [] => 0
  | x :: xs => xs.foldl min x

/-- Maximum of a list of rationals (only applied to non-empty lists). -/
def qmax : List ℚ → ℚ
  | [] => 0
  | x :: xs => xs.foldl max x

/-- Arithmetic mean of a list of rationals. -/
def qmean (xs : List ℚ) : ℚ := xs.sum / (xs.length : ℚ)

/-- Squared sample standard deviation (sample variance), pandas `std`
semantics with `ddof = 1`: undefined (`none`, rendered NaN by pandas) for
fewer than two values, otherwise the squared deviations from the mean divided
by `n - 1`.  The statistic the source reports is the square root of this
value, rounded; it is NaN in exactly the cases where this is `none`, and the
`n - 1` denominator is visible here. -/
def sampleStdSq (xs : List ℚ) : Option ℚ :=
  if 2 ≤ xs.length then
    some (((xs.map (fun x => (x - qmean xs) ^ 2)).sum) / ((xs.length : ℚ) - 1))
  else none

/-- S4C values of the merged records belonging to one satellite, in record
order (the group `groupby('satellite')` forms for that key). -/
def satGroup (recs : List MergedRecord) (s : String) : List ℚ :=
  (recs.filter (fun r => r.satellite = s)).map (·.s4c)

/-- Row of the per-satellite statistics table (count/mean/std/min/max of
`s4c`, each rounded to six decimals; `stdSq` is the squared std, see
`sampleStdSq`). -/
structure SatStat where
  satellite : String
  count : Nat
  mean : ℚ
  stdSq : Option ℚ
  min : ℚ
  max : ℚ
deriving DecidableEq

/-- Statistics row for one satellite key. -/
def satStatsFor (recs : List MergedRecord) (s : String) : SatStat :=
  let g := satGroup recs s
  ⟨s, g.length, rnd6 (qmean g), sampleStdSq g, rnd6 (qmin g), rnd6 (qmax g)⟩

/-- Embedding of the `groupby('satellite')` aggregation: one row per distinct
satellite, keys sorted ascending (the pandas groupby default). -/
def satStats (recs : List MergedRecord) : List SatStat :=
  (List.insertionSort (· ≤ ·) (recs.map (·.satellite)).dedup).map (satStatsFor recs)

/-- Start (in seconds) of the 1-minute bucket containing instant `t`:
buckets are aligned to absolute clock minute boundaries. -/
def bucketOf (t : Nat) : Nat := t / 60 * 60

/-- Earliest timestamp among the merged records (only used non-empty). -/
def minTime (recs : List MergedRecord) : Nat := natMin (recs.map (·.timestamp))

/-- Latest timestamp among the merged records (only used non-empty). -/
def maxTime (recs : List MergedRecord) : Nat := natMax (recs.map (·.timestamp))

/-- S4C values of the records falling in the bucket starting at `b`. -/
def bucketVals (recs : List MergedRecord) (b : Nat) : List ℚ :=
  (recs.filter (fun r => bucketOf r.timestamp = b)).map (·.s4c)

/-- Row of the temporal statistics table: bucket start, count, mean, squared
std of `s4c` in that 1-minute bucket. -/
structure TempStat where
  bucket : Nat
  count : Nat
  mean : Option ℚ
  stdSq : Option ℚ
deriving DecidableEq

/-- Statistics row of one 1-minute bin starting at `b`: count, mean, squared
std of the `s4c` values falling in the bin (mean/std NaN when empty). -/
def bucketRow (recs : List MergedRecord) (b : Nat) : TempStat :=
  let vs := bucketVals recs b
  ⟨b, vs.length, if vs.isEmpty then none else some (rnd6 (qmean vs)), sampleStdSq vs⟩

/-- Embedding of `groupby(pd.Grouper(freq='1min'))`: like `resample`, the
time grouper materialises every 1-minute bin from the bin of the earliest
record through the bin of the latest record inclusive — bins with no records
appear with count 0 and NaN mean/std. -/
def temporalStats (recs : List MergedRecord) : List TempStat :=
  if recs = [] then []
  else
    (List.range ((bucketOf (maxTime recs) - bucketOf (minTime recs)) / 60 + 1)).map
      (fun i => bucketRow recs (bucketOf (minTime recs) + 60 * i))

/-- Embedding of `analyze_statistics`.  The source guards only
`combined_data is None` (returning `None, None`).  When the merge produced an
empty record list, `pd.DataFrame([])` has no columns at all, so
`groupby('satellite')` raises `KeyError` — modelled as `.error`. -/
def analyze_statistics (combined : Option (List MergedRecord)) :
    Except String (Option (List SatStat × List TempStat)) :=
  match combined with
  | none => .ok none
  | some recs =>
    if recs.isEmpty then .error "KeyError"
    else .ok (some (satStats recs, temporalStats recs))

/-- Metadata block of `create_transformed_data_response` (the response
envelope).  `none` fields model the JSON `null` sentinels the source emits
for empty data; `data_coverage` is the coverage ratio in percent, `none`
modelling the `"0%"` fallback string used when the denominator is zero. -/
structure ResponseMeta where
  total_records : Nat
  unique_satellites : Nat
  satellite_list : List String
  time_start : Option Nat
  time_end : Option Nat
  s4c_min : Option ℚ
  s4c_max : Option ℚ
  s4c_mean : Option ℚ
  s4c_stdSq : Option ℚ
  lat_min : Option ℚ
  lat_max : Option ℚ
  lon_min : Option ℚ
  lon_max : Option ℚ
  data_coverage : Option ℚ
deriving DecidableEq

/-- Embedding of `create_transformed_data_response`: `none` models the
`status = "error"` envelope returned when no combined data exists; otherwise
the metadata computed from the transformed records, with every statistic of
an empty frame guarded to a `null` sentinel.  `activeCount` and `latRows`
stand for `len(active_satellites)` and `len(lat_data)`. -/
def create_transformed_data_response (combined : Option (List MergedRecord))
    (activeCount latRows : Nat) : Option ResponseMeta :=
  match combined with
  | none => none
  | some recs =>
    let tdf := transform_to_new_format (some recs)
    some
      { total_records := tdf.length
        unique_satellites := (tdf.map (·.Satellite)).dedup.length
        satellite_list := List.insertionSort (· ≤ ·) (tdf.map (·.Satellite)).dedup
        time_start := if tdf.isEmpty then none else some (natMin (tdf.map (·.Time)))
        time_end := if tdf.isEmpty then none else some (natMax (tdf.map (·.Time)))
        s4c_min := if tdf.isEmpty then none else some (qmin (tdf.map (·.S4C)))
        s4c_max := if tdf.isEmpty then none else some (qmax (tdf.map (·.S4C)))
        s4c_mean := if tdf.isEmpty then none else some (qmean (tdf.map (·.S4C)))
        s4c_stdSq := if tdf.isEmpty then none else sampleStdSq (tdf.map (·.S4C))
        lat_min := if tdf.isEmpty then none else some (qmin (tdf.map (·.Lat)))
        lat_max := if tdf.isEmpty then none else some (qmax (tdf.map (·.Lat)))
        lon_min := if tdf.isEmpty then none else some (qmin (tdf.map (·.Lon)))
        lon_max := if tdf.isEmpty then none else some (qmax (tdf.map (·.Lon)))
        data_coverage :=
          if activeCount ≠ 0 ∧ latRows ≠ 0 then
            some ((tdf.length : ℚ) / ((activeCount : ℚ) * (latRows : ℚ)) * 100)
          else none }

/-- Candidate alert entries of a batch: the records with `S4C >= 0.4`, in
batch order (`df[df['S4C'] >= 0.4]`). -/
def alertFilter (records : List NormalizedRecord) : List NormalizedRecord :=
  records.filter (fun r => (2 : ℚ) / 5 ≤ r.S4C)

/-- Freshness anchor of an existing log: the maximum `Time` over its entries
(`existing_df['Time'].max()` after parsing). -/
def anchorTime (old : List NormalizedRecord) : Nat := natMax (old.map (·.Time))

/-- Age of the anchor in whole days (`(datetime.now() - latest).days`,
floor-truncated).  The Python value is negative when the anchor lies in the
future; there it is `<= 60` and here it is `0 <= 60`, so the append/replace
branch taken is identical. -/
def daysDiff (now anchor : Nat) : Nat := (now - anchor) / 86400

/-- Embedding of `generate_s4c_alert_file` as a function on the persisted
log: `existing = none` models an absent file, `some old` the parsed rows of
an existing file.  Filter the batch to `S4C >= 0.4`, then: absent or empty
log → write the candidates; otherwise append when the anchor is at most 60
whole days old, else overwrite with the candidates alone.  Note there is no
short-circuit for an empty candidate set — the staleness branch runs
regardless, and the file is rewritten on every call. -/
def generate_s4c_alert_file (existing : Option (List NormalizedRecord))
    (records : List NormalizedRecord) (now : Nat) : List NormalizedRecord :=
  let alert := alertFilter records
  match existing with
  | none => alert
  | some old =>
    if old.isEmpty then alert
    else if daysDiff now (anchorTime old) ≤ 60 then old ++ alert
    else alert

/-- Embedding of `save_as_csv`: fails (returns `False`) on an empty record
list, succeeds otherwise. -/
def save_as_csv (records : List NormalizedRecord) : Bool := !records.isEmpty

/-- Embedding of `run_processing_cycle` as a function from the cycle's
environment to (success flag, resulting persisted alert log).  The steps
run in source order: file check, API call, record extraction (empty list
aborts), CSV save, alert-file generation, GitHub upload.  The log component
of the result is the state of `log_s4c_alert.csv` after the cycle. -/
def run_processing_cycle (filesExist apiOk : Bool) (records : List NormalizedRecord)
    (log : Option (List NormalizedRecord)) (now : Nat) (uploadOk : Bool) :
    Bool × Option (List NormalizedRecord) :=
  if !filesExist then (false, log)
  else if !apiOk then (false, log)
  else if records.isEmpty then (false, log)
  else if !save_as_csv records then (false, log)
  else (uploadOk, some (generate_s4c_alert_file log records now))

/-! Concrete instances used by witnesses and counterexamples. -/

/-- Latitude matrix of a small compatible batch: two timestamps, two
satellites, one NaN cell at (60, G02). -/
def latW1 : RawMatrix :=
  ⟨[0, 60], ["G01", "G02"], fun t s => if s = "G02" ∧ t = 60 then none else some 7⟩

/-- Longitude matrix of the small compatible batch (all cells present). -/
def lonW1 : RawMatrix := ⟨[0, 60], ["G01", "G02"], fun _ _ => some 100⟩

/-- S4C matrix of the small compatible batch (all cells present). -/
def s4cW1 : RawMatrix := ⟨[0, 60], ["G01", "G02"], fun _ _ => some (1 / 2)⟩

/-- Latitude matrix with one timestamp and one fully populated satellite. -/
def latC5 : RawMatrix := ⟨[0], ["G01"], fun _ _ => some 1⟩

/-- Longitude matrix whose index is missing timestamp 0 (mismatched key). -/
def lonC5 : RawMatrix := ⟨[], ["G01"], fun _ _ => some 1⟩

/-- Matrix whose index is stored in descending timestamp order. -/
def latC8 : RawMatrix := ⟨[120, 60], ["G01"], fun _ _ => some 1⟩

/-- Merge result of `latC8` used with itself for all three matrices. -/
def mergedC8 : List MergedRecord := [⟨120, "G01", 1, 1, 1⟩, ⟨60, "G01", 1, 1, 1⟩]

/-- Two merged records two minutes apart, leaving the middle minute empty. -/
def recsC6 : List MergedRecord := [⟨30, "G01", 1, 1, 1 / 10⟩, ⟨150, "G01", 2, 2, 3 / 10⟩]

/-- Single merged record (a satellite group of size one). -/
def recsW9 : List MergedRecord := [⟨0, "G01", 1, 1, 1 / 2⟩]

/-- Existing alert log with one entry anchored at time 0. -/
def oldW2 : List NormalizedRecord := [⟨"G01", 0, 1 / 2, 1, 1⟩]

/-- Batch with one qualifying record 30 days (2592000 s) after the anchor. -/
def recsW2 : List NormalizedRecord := [⟨"G02", 2592000, 1 / 2, 1, 1⟩]

/-- Batch whose only record is below the alert threshold (empty candidates). -/
def recsC3 : List NormalizedRecord := [⟨"G02", 7776000, 1 / 10, 2, 2⟩]

/-- Normalized record with S4C exactly 0.4. -/
def entry04 : NormalizedRecord := ⟨"G01", 0, 2 / 5, 0, 0⟩

/-- Normalized record with S4C = 0.399999. -/
def entry0399999 : NormalizedRecord := ⟨"G01", 0, 399999 / 1000000, 0, 0⟩

/-! Helper lemmas. -/

/-- Appending when the log exists, is non-empty and the anchor is fresh. -/
lemma generate_fresh (old records : List NormalizedRecord) (now : Nat)
    (hold : old ≠ []) (hfresh : daysDiff now (anchorTime old) ≤ 60) :
    generate_s4c_alert_file (some old) records now = old ++ alertFilter records := by
  unfold generate_s4c_alert_file
  have h1 : old.isEmpty = false := by
    cases old with
    | nil => exact absurd rfl hold
    | cons a l => rfl
  simp [h1, hfresh]

/-- Overwriting when the log exists, is non-empty and the anchor is stale. -/
lemma generate_stale (old records : List NormalizedRecord) (now : Nat)
    (hold : old ≠ []) (hstale : 60 < daysDiff now (anchorTime old)) :
    generate_s4c_alert_file (some old) records now = alertFilter records := by
  unfold generate_s4c_alert_file
  have h1 : old.isEmpty = false := by
    cases old with
    | nil => exact absurd rfl hold
    | cons a l => rfl
  simp [h1, Nat.not_le.mpr hstale]

/-- Evaluation of the candidate filter on the qualifying concrete batch. -/
lemma alertFilter_recsW2 : alertFilter recsW2 = recsW2 := by
  norm_num [alertFilter, recsW2, List.filter]

/-- Evaluation of the candidate filter on the below-threshold batch. -/
lemma alertFilter_recsC3 : alertFilter recsC3 = [] := by
  norm_num [alertFilter, recsC3, List.filter]

/-- C2: with a non-empty existing log and a non-empty candidate batch, a
fresh anchor (at most 60 whole days old) appends the candidates after the
existing entries (count = old + candidates), and a stale anchor (more than
60 whole days old) replaces the log with exactly the candidates. -/
theorem alert_retention_60day (old records : List NormalizedRecord) (now : Nat)
    (hold : old ≠ []) (hcand : alertFilter records ≠ []) :
    (daysDiff now (anchorTime old) ≤ 60 →
      generate_s4c_alert_file (some old) records now = old ++ alertFilter records ∧
      (generate_s4c_alert_file (some old) records now).length =
        old.length + (alertFilter records).length) ∧
    (60 < daysDiff now (anchorTime old) →
      generate_s4c_alert_file (some old) records now = alertFilter records) := by
  constructor
  · intro hfresh
    rw [generate_fresh old records now hold hfresh]
    exact ⟨rfl, List.length_append _ _⟩
  · intro hstale
    exact generate_stale old records now hold hstale

/-- Witness for C2 at a concrete fresh instance (anchor 30 days old). -/
theorem alert_retention_60day_witness :
    oldW2 ≠ [] ∧ alertFilter recsW2 ≠ [] ∧ daysDiff 2592000 (anchorTime oldW2) ≤ 60 ∧
    generate_s4c_alert_file (some oldW2) recsW2 2592000 = oldW2 ++ alertFilter recsW2 := by
  have hc : alertFilter recsW2 ≠ [] := by rw [alertFilter_recsW2]; decide
  refine ⟨by decide, hc, by decide, ?_⟩
  exact ((alert_retention_60day oldW2 recsW2 2592000 (by decide) hc).1 (by decide)).1

/-- C3 counterexample: a non-empty stale log together with a batch whose
candidate set is empty is wiped (replaced by the empty candidate list), so
the persisted log is not left untouched. -/
theorem alert_empty_batch_cex :
    alertFilter recsC3 = [] ∧
    generate_s4c_alert_file (some oldW2) recsC3 7776000 = [] ∧
    oldW2 ≠ [] := by
  refine ⟨alertFilter_recsC3, ?_, by decide⟩
  have h := generate_stale oldW2 recsC3 7776000 (by decide) (by decide)
  rw [alertFilter_recsC3] at h
  exact h

/-- C3 amended: an empty candidate batch does not short-circuit the alert
manager — the staleness check still runs and the file is rewritten: a fresh
non-empty log keeps exactly its old entries, while a stale non-empty log is
replaced by the empty candidate set (all old entries discarded). -/
theorem alert_empty_batch_staleness (old records : List NormalizedRecord) (now : Nat)
    (hold : old ≠ []) (hcand : alertFilter records = []) :
    (daysDiff now (anchorTime old) ≤ 60 →
      generate_s4c_alert_file (some old) records now = old) ∧
    (60 < daysDiff now (anchorTime old) →
      generate_s4c_alert_file (some old) records now = []) := by
  constructor
  · intro hfresh
    rw [generate_fresh old records now hold hfresh, hcand, List.append_nil]
  · intro hstale
    rw [generate_stale old records now hold hstale, hcand]

/-- Witness for the amended C3 at a concrete fresh instance. -/
theorem alert_empty_batch_staleness_witness :
    oldW2 ≠ [] ∧ alertFilter recsC3 = [] ∧ daysDiff 0 (anchorTime oldW2) ≤ 60 ∧
    generate_s4c_alert_file (some oldW2) recsC3 0 = oldW2 := by
  refine ⟨by decide, alertFilter_recsC3, by decide, ?_⟩
  exact (alert_empty_batch_staleness oldW2 recsC3 0 (by decide) alertFilter_recsC3).1 (by decide)

/-- C7: a normalized record is a candidate alert entry iff its S4C value is
at least 0.4; S4C exactly 0.4 is included and S4C = 0.399999 is excluded. -/
theorem alert_threshold_boundary :
    (∀ (records : List NormalizedRecord) (r : NormalizedRecord),
      r ∈ alertFilter records ↔ r ∈ records ∧ (2 : ℚ) / 5 ≤ r.S4C) ∧
    entry04 ∈ alertFilter [entry04] ∧ entry0399999 ∉ alertFilter [entry0399999] := by
  refine ⟨?_, ?_, ?_⟩
  · intro records r
    simp [alertFilter]
  · norm_num [alertFilter, entry04, List.filter]
  · norm_num [alertFilter, entry0399999, List.filter]

/-- Witness for C7 applied at the boundary record with S4C = 0.4. -/
theorem alert_threshold_boundary_witness :
    entry04 ∈ alertFilter [entry04] ↔ entry04 ∈ [entry04] ∧ (2 : ℚ) / 5 ≤ entry04.S4C :=
  alert_threshold_boundary.1 [entry04] entry04

/-- C10: a processing cycle whose extracted record list is empty returns
failure and leaves the persisted alert log exactly as it was, in every
environment (file presence, API status, upload status, any log state) — the
alert-log step is never reached. -/
theorem cycle_aborts_empty_records (filesExist apiOk uploadOk : Bool)
    (log : Option (List NormalizedRecord)) (now : Nat) :
    run_processing_cycle filesExist apiOk [] log now uploadOk = (false, log) := by
  unfold run_processing_cycle
  cases filesExist <;> cases apiOk <;> simp

/-- Witness for C10 at a concrete environment with a stale non-empty log. -/
theorem cycle_aborts_empty_records_witness :
    run_processing_cycle true true [] (some oldW2) 7776000 true = (false, some oldW2) :=
  cycle_aborts_empty_records true true true (some oldW2) 7776000

/-- C4 (code evaluated at the failing input): with an empty merged record
set, the format normalizer and the response-envelope builder return empty
collections and null sentinels, but the statistics aggregator raises
`KeyError` (it guards only the `None` case; `pd.DataFrame([])` has no
`satellite` column), contradicting the claim that every downstream stage
handles the empty case without raising. -/
theorem empty_merge_downstream :
    analyze_statistics (some []) = .error "KeyError" ∧
    analyze_statistics none = .ok none ∧
    transform_to_new_format (some []) = [] ∧
    transform_to_new_format none = [] ∧
    create_transformed_data_response (some []) 1 2 =
      some ⟨0, 0, [], none, none, none, none, none, none, none, none, none, none, some 0⟩ := by
  refine ⟨rfl, rfl, rfl, rfl, ?_⟩
  norm_num [create_transformed_data_response, transform_to_new_format, List.insertionSort]

/-- With all three label pairs present, one merge step returns the cell
record without raising. -/
lemma mergeCell_eq_of_labels (lat lon s4c : RawMatrix) (t : Nat) (s : String)
    (h1 : hasLabels lat t s) (h2 : hasLabels lon t s) (h3 : hasLabels s4c t s) :
    mergeCell lat lon s4c t s = .ok (cellRecord lat lon s4c t s) := by
  unfold mergeCell cellRecord RawMatrix.loc
  rw [if_pos h1, if_pos h2, if_pos h3]
  cases lat.entry t s <;> cases lon.entry t s <;> cases s4c.entry t s <;> rfl

/-- A merge step that returned without raising had all three labels. -/
lemma mergeCell_ok_labels {lat lon s4c : RawMatrix} {t : Nat} {s : String}
    {x : Option MergedRecord} (h : mergeCell lat lon s4c t s = .ok x) :
    hasLabels lat t s ∧ hasLabels lon t s ∧ hasLabels s4c t s := by
  by_cases h1 : hasLabels lat t s
  · by_cases h2 : hasLabels lon t s
    · by_cases h3 : hasLabels s4c t s
      · exact ⟨h1, h2, h3⟩
      · exfalso
        unfold mergeCell RawMatrix.loc at h
        rw [if_pos h1, if_pos h2, if_neg h3] at h
        exact Except.noConfusion h
    · exfalso
      unfold mergeCell RawMatrix.loc at h
      rw [if_pos h1, if_neg h2] at h
      exact Except.noConfusion h
  · exfalso
    unfold mergeCell RawMatrix.loc at h
    rw [if_neg h1] at h
    exact Except.noConfusion h

/-- Evaluation of the inner satellite loop when no lookup raises. -/
lemma mergeSats_eq_of (lat lon s4c : RawMatrix) (t : Nat) (ss : List String)
    (h : ∀ s ∈ ss, mergeCell lat lon s4c t s = .ok (cellRecord lat lon s4c t s)) :
    mergeSats lat lon s4c t ss = .ok (ss.filterMap (cellRecord lat lon s4c t)) := by
  induction ss with
  | nil => rfl
  | cons s rest ih =>
    have hs := h s (List.mem_cons_self s rest)
    have hrest := ih (fun s' hs' => h s' (List.mem_cons_of_mem _ hs'))
    rw [mergeSats, hs, hrest]
    cases hc : cellRecord lat lon s4c t s <;> simp [List.filterMap_cons, hc]

/-- Evaluation of the outer loop when no lookup raises. -/
lemma mergeRows_eq_of (lat lon s4c : RawMatrix) (idx : List Nat)
    (h : ∀ t ∈ idx, mergeSats lat lon s4c t (activeSatellites lat) =
      .ok ((activeSatellites lat).filterMap (cellRecord lat lon s4c t))) :
    mergeRows lat lon s4c idx =
      .ok (idx.flatMap (fun t => (activeSatellites lat).filterMap (cellRecord lat lon s4c t))) := by
  induction idx with
  | nil => rfl
  | cons t rest ih =>
    have ht := h t (List.mem_cons_self t rest)
    have hrest := ih (fun t' ht' => h t' (List.mem_cons_of_mem _ ht'))
    rw [mergeRows, ht, hrest, List.flatMap_cons]

/-- Under the shared-label invariant the merge succeeds and returns the
total double-loop description `mergeTotal`. -/
lemma merge_ok_of_compat {lat lon s4c : RawMatrix} (h : compat lat lon s4c) :
    merge_data lat lon s4c = .ok (mergeTotal lat lon s4c) := by
  unfold merge_data mergeTotal
  refine mergeRows_eq_of lat lon s4c lat.index (fun t ht => ?_)
  refine mergeSats_eq_of lat lon s4c t _ (fun s hs => ?_)
  obtain ⟨h1, h2, h3⟩ := h t ht s hs
  exact mergeCell_eq_of_labels lat lon s4c t s h1 h2 h3

/-- An inner loop that returned without raising had every lookup succeed. -/
lemma mergeSats_ok_forall {lat lon s4c : RawMatrix} {t : Nat} :
    ∀ (ss : List String) (L : List MergedRecord),
      mergeSats lat lon s4c t ss = .ok L →
      ∀ s ∈ ss, ∃ x, mergeCell lat lon s4c t s = .ok x := by
  intro ss
  induction ss with
  | nil =>
    intro L _ s hs
    exact absurd hs (List.not_mem_nil s)
  | cons s rest ih =>
    intro L hL s' hs'
    rw [mergeSats] at hL
    split at hL
    · exact absurd hL (by simp)
    · exact absurd hL (by simp)
    · rename_i r rs hcell hrest
      rcases List.mem_cons.mp hs' with heq | hmem
      · exact heq ▸ ⟨some r, hcell⟩
      · exact ih rs hrest s' hmem
    · rename_i rs hcell hrest
      rcases List.mem_cons.mp hs' with heq | hmem
      · exact heq ▸ ⟨none, hcell⟩
      · exact ih rs hrest s' hmem

/-- An outer loop that returned without raising had every row succeed. -/
lemma mergeRows_ok_forall {lat lon s4c : RawMatrix} :
    ∀ (idx : List Nat) (L : List MergedRecord),
      mergeRows lat lon s4c idx = .ok L →
      ∀ t ∈ idx, ∃ M, mergeSats lat lon s4c t (activeSatellites lat) = .ok M := by
  intro idx
  induction idx with
  | nil =>
    intro L _ t ht
    exact absurd ht (List.not_mem_nil t)
  | cons t rest ih =>
    intro L hL t' ht'
    rw [mergeRows] at hL
    split at hL
    · exact absurd hL (by simp)
    · exact absurd hL (by simp)
    · rename_i row later hrow hlater
      rcases List.mem_cons.mp ht' with heq | hmem
      · exact heq ▸ ⟨row, hrow⟩
      · exact ih later hlater t' hmem

/-- A merge that returned without raising satisfies the shared-label
invariant at every visited (timestamp, active satellite) pair. -/
lemma compat_of_merge_ok {lat lon s4c : RawMatrix} {L : List MergedRecord}
    (h : merge_data lat lon s4c = .ok L) : compat lat lon s4c := by
  intro t ht s hs
  obtain ⟨M, hM⟩ := mergeRows_ok_forall lat.index L h t ht
  obtain ⟨x, hx⟩ := mergeSats_ok_forall _ M hM s hs
  exact mergeCell_ok_labels hx

/-- Fields of a record emitted for one cell. -/
lemma cellRecord_some {lat lon s4c : RawMatrix} {t : Nat} {s : String}
    {r : MergedRecord} (h : cellRecord lat lon s4c t s = some r) :
    r.timestamp = t ∧ r.satellite = s ∧
    lat.entry t s = some r.latitude ∧ lon.entry t s = some r.longitude ∧
    s4c.entry t s = some r.s4c := by
  unfold cellRecord at h
  split at h
  · rename_i a o c ha ho hc
    cases h
    exact ⟨rfl, rfl, ha, ho, hc⟩
  · exact absurd h (by simp)

/-- Emitted record for a cell whose three values are present. -/
lemma cellRecord_eq_some {lat lon s4c : RawMatrix} {t : Nat} {s : String}
    {a o c : ℚ} (ha : lat.entry t s = some a) (ho : lon.entry t s = some o)
    (hc : s4c.entry t s = some c) :
    cellRecord lat lon s4c t s = some ⟨t, s, a, o, c⟩ := by
  unfold cellRecord
  rw [ha, ho, hc]

/-- Membership in the total merge description. -/
lemma mem_mergeTotal {lat lon s4c : RawMatrix} {r : MergedRecord} :
    r ∈ mergeTotal lat lon s4c ↔
    ∃ t ∈ lat.index, ∃ s ∈ activeSatellites lat, cellRecord lat lon s4c t s = some r := by
  unfold mergeTotal
  simp [List.mem_flatMap, List.mem_filterMap]

/-- C1: under the shared-label invariant, the merge succeeds, and for every
timestamp `t` of the latitude index and every active satellite `s` a merged
record for `(t, s)` exists iff all three matrices hold a non-missing value
at `(t, s)`; any such record carries exactly those three cell values. -/
theorem merge_complete_iff (lat lon s4c : RawMatrix) (h : compat lat lon s4c)
    (t : Nat) (s : String) (ht : t ∈ lat.index) (hs : s ∈ activeSatellites lat) :
    merge_data lat lon s4c = .ok (mergeTotal lat lon s4c) ∧
    (((lat.entry t s).isSome ∧ (lon.entry t s).isSome ∧ (s4c.entry t s).isSome) ↔
      ∃ r ∈ mergeTotal lat lon s4c, r.timestamp = t ∧ r.satellite = s) ∧
    (∀ r ∈ mergeTotal lat lon s4c, r.timestamp = t → r.satellite = s →
      lat.entry t s = some r.latitude ∧ lon.entry t s = some r.longitude ∧
      s4c.entry t s = some r.s4c) := by
  refine ⟨merge_ok_of_compat h, ⟨?_, ?_⟩, ?_⟩
  · rintro ⟨ha, ho, hc⟩
    obtain ⟨a, ha⟩ := Option.isSome_iff_exists.mp ha
    obtain ⟨o, ho⟩ := Option.isSome_iff_exists.mp ho
    obtain ⟨c, hc⟩ := Option.isSome_iff_exists.mp hc
    exact ⟨⟨t, s, a, o, c⟩, mem_mergeTotal.mpr ⟨t, ht, s, hs, cellRecord_eq_some ha ho hc⟩,
      rfl, rfl⟩
  · rintro ⟨r, hrmem, hrt, hrs⟩
    obtain ⟨t', ht', s', hs', hcell⟩ := mem_mergeTotal.mp hrmem
    obtain ⟨het, hes, hla, hlo, hsc⟩ := cellRecord_some hcell
    have h1 : t' = t := by rw [← het, hrt]
    have h2 : s' = s := by rw [← hes, hrs]
    subst h1; subst h2
    exact ⟨hla ▸ rfl, hlo ▸ rfl, hsc ▸ rfl⟩
  · intro r hrmem hrt hrs
    obtain ⟨t', ht', s', hs', hcell⟩ := mem_mergeTotal.mp hrmem
    obtain ⟨het, hes, hla, hlo, hsc⟩ := cellRecord_some hcell
    have h1 : t' = t := by rw [← het, hrt]
    have h2 : s' = s := by rw [← hes, hrs]
    subst h1; subst h2
    exact ⟨hla, hlo, hsc⟩

/-- Witness for C1 on a concrete compatible batch, at cell (0, G01). -/
theorem merge_complete_iff_witness :
    compat latW1 lonW1 s4cW1 ∧ 0 ∈ latW1.index ∧ "G01" ∈ activeSatellites latW1 ∧
    (merge_data latW1 lonW1 s4cW1 = .ok (mergeTotal latW1 lonW1 s4cW1) ∧
     (((latW1.entry 0 "G01").isSome ∧ (lonW1.entry 0 "G01").isSome ∧
        (s4cW1.entry 0 "G01").isSome) ↔
       ∃ r ∈ mergeTotal latW1 lonW1 s4cW1, r.timestamp = 0 ∧ r.satellite = "G01") ∧
     (∀ r ∈ mergeTotal latW1 lonW1 s4cW1, r.timestamp = 0 → r.satellite = "G01" →
       latW1.entry 0 "G01" = some r.latitude ∧ lonW1.entry 0 "G01" = some r.longitude ∧
       s4cW1.entry 0 "G01" = some r.s4c)) :=
  ⟨by decide, by decide, by decide,
   merge_complete_iff latW1 lonW1 s4cW1 (by decide) 0 "G01" (by decide) (by decide)⟩

/-- C5 counterexample: a (t, s) key present in the latitude matrix but
absent from the longitude matrix's index makes the merge raise `KeyError` —
it does not silently drop the record. -/
theorem merge_mismatch_cex : merge_data latC5 lonC5 latC5 = .error "KeyError" := by
  rfl

/-- C5 amended: a key absent from one of the matrices aborts the merge with
a raised `KeyError`; only a key present in all three matrices whose value is
missing is silently dropped (the latter is the content of C1). -/
theorem merge_mismatch_raises (lat lon s4c : RawMatrix) (h : ¬ compat lat lon s4c) :
    ∃ msg, merge_data lat lon s4c = .error msg := by
  cases hm : merge_data lat lon s4c with
  | ok L => exact absurd (compat_of_merge_ok hm) h
  | error e => exact ⟨e, rfl⟩

/-- Witness for the amended C5 at the concrete mismatched batch. -/
theorem merge_mismatch_raises_witness :
    ¬ compat latC5 lonC5 latC5 ∧ ∃ msg, merge_data latC5 lonC5 latC5 = .error msg :=
  ⟨by decide, merge_mismatch_raises latC5 lonC5 latC5 (by decide)⟩

/-- Timestamps of one timestamp's block of the merge all equal that
timestamp. -/
lemma mem_block_timestamp {lat lon s4c : RawMatrix} {t : Nat} {r : MergedRecord}
    (hr : r ∈ (activeSatellites lat).filterMap (cellRecord lat lon s4c t)) :
    r.timestamp = t := by
  obtain ⟨s, _, hcell⟩ := List.mem_filterMap.mp hr
  exact (cellRecord_some hcell).1

/-- Records produced from an index sorted ascending are sorted ascending by
timestamp. -/
lemma pairwise_flatMap_timestamp (lat lon s4c : RawMatrix) :
    ∀ idx : List Nat, List.Pairwise (· ≤ ·) idx →
      List.Pairwise (fun a b => a.timestamp ≤ b.timestamp)
        (idx.flatMap (fun t => (activeSatellites lat).filterMap (cellRecord lat lon s4c t))) := by
  intro idx
  induction idx with
  | nil => intro _; simp
  | cons t rest ih =>
    intro hp
    obtain ⟨hhead, htail⟩ := List.pairwise_cons.mp hp
    rw [List.flatMap_cons, List.pairwise_append]
    refine ⟨?_, ih htail, ?_⟩
    · exact List.pairwise_of_forall_mem_list (fun a ha b hb => by
        rw [mem_block_timestamp ha, mem_block_timestamp hb])
    · intro a ha b hb
      obtain ⟨t', ht', hbmem⟩ := List.mem_flatMap.mp hb
      rw [mem_block_timestamp ha, mem_block_timestamp hbmem]
      exact hhead t' ht'

/-- C8 counterexample: with a latitude index stored in descending order, the
merge emits records in that stored order, which is not sorted ascending by
timestamp. -/
theorem merge_order_cex :
    merge_data latC8 latC8 latC8 = .ok mergedC8 ∧
    ¬ List.Pairwise (fun a b => a.timestamp ≤ b.timestamp) mergedC8 := by
  constructor
  · rfl
  · intro hp
    have h12 := (List.pairwise_cons.mp hp).1 _ (List.mem_cons_self _ _)
    exact absurd h12 (by decide)

/-- C8 amended: merged records are emitted in latitude-index order with a
stable satellite iteration order inside each timestamp; when the latitude
index is sorted ascending, the merged sequence is sorted ascending by
timestamp. -/
theorem merge_order_sorted_index (lat lon s4c : RawMatrix) (h : compat lat lon s4c)
    (hsorted : List.Pairwise (· ≤ ·) lat.index) :
    merge_data lat lon s4c = .ok (mergeTotal lat lon s4c) ∧
    List.Pairwise (fun a b => a.timestamp ≤ b.timestamp) (mergeTotal lat lon s4c) :=
  ⟨merge_ok_of_compat h, pairwise_flatMap_timestamp lat lon s4c lat.index hsorted⟩

/-- Witness for the amended C8 on the concrete batch with ascending index. -/
theorem merge_order_sorted_index_witness :
    compat latW1 lonW1 s4cW1 ∧ List.Pairwise (· ≤ ·) latW1.index ∧
    (merge_data latW1 lonW1 s4cW1 = .ok (mergeTotal latW1 lonW1 s4cW1) ∧
     List.Pairwise (fun a b => a.timestamp ≤ b.timestamp) (mergeTotal latW1 lonW1 s4cW1)) :=
  ⟨by decide, by decide, merge_order_sorted_index latW1 lonW1 s4cW1 (by decide) (by decide)⟩

/-- A left min-fold is bounded by its accumulator. -/
lemma foldl_min_le_acc : ∀ (l : List Nat) (acc : Nat), l.foldl min acc ≤ acc := by
  intro l
  induction l with
  | nil => intro acc; exact Nat.le_refl acc
  | cons y ys ih =>
    intro acc
    exact Nat.le_trans (ih (min acc y)) (Nat.min_le_left acc y)

/-- A left min-fold is bounded by every list element. -/
lemma foldl_min_le_mem : ∀ (l : List Nat) (acc x : Nat), x ∈ l → l.foldl min acc ≤ x := by
  intro l
  induction l with
  | nil =>
    intro acc x hx
    exact absurd hx (List.not_mem_nil x)
  | cons y ys ih =>
    intro acc x hx
    rcases List.mem_cons.mp hx with heq | hmem
    · subst heq
      exact Nat.le_trans (foldl_min_le_acc ys (min acc x)) (Nat.min_le_right acc x)
    · exact ih (min acc y) x hmem

/-- A left max-fold dominates its accumulator. -/
lemma acc_le_foldl_max : ∀ (l : List Nat) (acc : Nat), acc ≤ l.foldl max acc := by
  intro l
  induction l with
  | nil => intro acc; exact Nat.le_refl acc
  | cons y ys ih =>
    intro acc
    exact Nat.le_trans (Nat.le_max_left acc y) (ih (max acc y))

/-- A left max-fold dominates every list element. -/
lemma mem_le_foldl_max : ∀ (l : List Nat) (acc x : Nat), x ∈ l → x ≤ l.foldl max acc := by
  intro l
  induction l with
  | nil =>
    intro acc x hx
    exact absurd hx (List.not_mem_nil x)
  | cons y ys ih =>
    intro acc x hx
    rcases List.mem_cons.mp hx with heq | hmem
    · subst heq
      exact Nat.le_trans (Nat.le_max_right acc x) (acc_le_foldl_max ys (max acc x))
    · exact ih (max acc y) x hmem

/-- The list minimum is a lower bound. -/
lemma natMin_le {l : List Nat} {x : Nat} (hx : x ∈ l) : natMin l ≤ x := by
  cases l with
  | nil => exact absurd hx (List.not_mem_nil x)
  | cons y ys =>
    rcases List.mem_cons.mp hx with heq | hmem
    · subst heq
      exact foldl_min_le_acc ys x
    · exact foldl_min_le_mem ys y x hmem

/-- The list maximum is an upper bound. -/
lemma le_natMax {l : List Nat} {x : Nat} (hx : x ∈ l) : x ≤ natMax l := by
  cases l with
  | nil => exact absurd hx (List.not_mem_nil x)
  | cons y ys =>
    rcases List.mem_cons.mp hx with heq | hmem
    · subst heq
      exact acc_le_foldl_max ys x
    · exact mem_le_foldl_max ys y x hmem

/-- The earliest record time bounds every record time from below. -/
lemma minTime_le {recs : List MergedRecord} {r : MergedRecord} (hr : r ∈ recs) :
    minTime recs ≤ r.timestamp :=
  natMin_le (List.mem_map.mpr ⟨r, hr, rfl⟩)

/-- The latest record time bounds every record time from above. -/
lemma le_maxTime {recs : List MergedRecord} {r : MergedRecord} (hr : r ∈ recs) :
    r.timestamp ≤ maxTime recs :=
  le_natMax (List.mem_map.mpr ⟨r, hr, rfl⟩)

/-- Sample variance of fewer than two values is undefined. -/
lemma sampleStdSq_short {xs : List ℚ} (h : xs.length < 2) : sampleStdSq xs = none := by
  unfold sampleStdSq
  rw [if_neg (by omega)]

/-- C9: the aggregator's standard deviation follows the sample (n-1)
convention — a satellite group or a time bucket with exactly one record
yields an undefined (NaN) standard deviation, not zero — and on a two-value
group the variance equals the squared difference halved (the n-1 value;
an n-denominator convention would give a quarter of the squared
difference). -/
theorem std_sample_single (recs : List MergedRecord) (s : String)
    (h : (satGroup recs s).length = 1) :
    (satStatsFor recs s).stdSq = none ∧
    (∀ st ∈ temporalStats recs, st.count = 1 → st.stdSq = none) ∧
    (∀ a b : ℚ, sampleStdSq [a, b] = some ((a - b) ^ 2 / 2)) := by
  refine ⟨?_, ?_, ?_⟩
  · show sampleStdSq (satGroup recs s) = none
    exact sampleStdSq_short (by omega)
  · intro st hst hcount
    unfold temporalStats at hst
    split at hst
    · exact absurd hst (List.not_mem_nil st)
    · obtain ⟨i, hi, rfl⟩ := List.mem_map.mp hst
      show sampleStdSq _ = none
      have hc : (bucketVals recs (bucketOf (minTime recs) + 60 * i)).length = 1 := hcount
      exact sampleStdSq_short (by omega)
  · intro a b
    unfold sampleStdSq qmean
    norm_num
    ring

/-- Witness for C9 on the single-record batch. -/
theorem std_sample_single_witness :
    (satGroup recsW9 "G01").length = 1 ∧
    ((satStatsFor recsW9 "G01").stdSq = none ∧
     (∀ st ∈ temporalStats recsW9, st.count = 1 → st.stdSq = none) ∧
     (∀ a b : ℚ, sampleStdSq [a, b] = some ((a - b) ^ 2 / 2))) :=
  ⟨by decide, std_sample_single recsW9 "G01" (by decide)⟩

/-- C6 counterexample: two records two minutes apart produce three 1-minute
buckets, the middle one emitted with count 0 — zero-record buckets inside
the data's time range are not omitted. -/
theorem temporal_zero_bucket_cex :
    (temporalStats recsC6).map (fun st => (st.bucket, st.count)) =
      [(0, 1), (60, 0), (120, 1)] ∧
    ∃ st ∈ temporalStats recsC6, st.count = 0 := by
  have hmap : (temporalStats recsC6).map (fun st => (st.bucket, st.count)) =
      [(0, 1), (60, 0), (120, 1)] := rfl
  refine ⟨hmap, ?_⟩
  have h60 : ((60 : Nat), (0 : Nat)) ∈
      (temporalStats recsC6).map (fun st => (st.bucket, st.count)) := by
    rw [hmap]
    decide
  obtain ⟨st, hst, heq⟩ := List.mem_map.mp h60
  exact ⟨st, hst, congrArg Prod.snd heq⟩

/-- C6 amended: the temporal statistics contain one entry per 1-minute
bucket from the bucket of the earliest record through the bucket of the
latest record inclusive; every record's bucket appears with a non-zero
count, and in-range buckets holding no records are emitted with count 0 and
null mean/std (only buckets outside the data's range are absent). -/
theorem temporal_bucket_range (recs : List MergedRecord) (h : recs ≠ []) :
    ((temporalStats recs).map (fun st => st.bucket) =
      (List.range ((bucketOf (maxTime recs) - bucketOf (minTime recs)) / 60 + 1)).map
        (fun i => bucketOf (minTime recs) + 60 * i)) ∧
    (∀ st ∈ temporalStats recs,
      st.count = (recs.filter (fun r => bucketOf r.timestamp = st.bucket)).length ∧
      (st.count = 0 → st.mean = none ∧ st.stdSq = none)) ∧
    (∀ r ∈ recs, ∃ st ∈ temporalStats recs,
      st.bucket = bucketOf r.timestamp ∧ st.count ≠ 0) := by
  have hT : temporalStats recs =
      (List.range ((bucketOf (maxTime recs) - bucketOf (minTime recs)) / 60 + 1)).map
        (fun i => bucketRow recs (bucketOf (minTime recs) + 60 * i)) := by
    unfold temporalStats
    rw [if_neg h]
  refine ⟨?_, ?_, ?_⟩
  · rw [hT, List.map_map]
    rfl
  · intro st hst
    rw [hT] at hst
    obtain ⟨i, hi, rfl⟩ := List.mem_map.mp hst
    constructor
    · show (bucketVals recs (bucketOf (minTime recs) + 60 * i)).length = _
      unfold bucketVals
      rw [List.length_map]
      rfl
    · intro hc0
      have hv : bucketVals recs (bucketOf (minTime recs) + 60 * i) = [] :=
        List.length_eq_zero.mp hc0
      constructor
      · show (if (bucketVals recs (bucketOf (minTime recs) + 60 * i)).isEmpty
            then none else some (rnd6 (qmean (bucketVals recs (bucketOf (minTime recs) + 60 * i))))) = none
        rw [hv]
        rfl
      · show sampleStdSq (bucketVals recs (bucketOf (minTime recs) + 60 * i)) = none
        rw [hv]
        rfl
  · intro r hr
    have h1 : minTime recs / 60 ≤ r.timestamp / 60 := Nat.div_le_div_right (minTime_le hr)
    have h2 : r.timestamp / 60 ≤ maxTime recs / 60 := Nat.div_le_div_right (le_maxTime hr)
    have hn : (bucketOf (maxTime recs) - bucketOf (minTime recs)) / 60 =
        maxTime recs / 60 - minTime recs / 60 := by
      unfold bucketOf
      omega
    refine ⟨bucketRow recs (bucketOf r.timestamp), ?_, rfl, ?_⟩
    · rw [hT, hn]
      refine List.mem_map.mpr
        ⟨r.timestamp / 60 - minTime recs / 60, List.mem_range.mpr (by omega), ?_⟩
      have harg : bucketOf (minTime recs) + 60 * (r.timestamp / 60 - minTime recs / 60) =
          bucketOf r.timestamp := by
        unfold bucketOf
        omega
      rw [harg]
    · show (bucketVals recs (bucketOf r.timestamp)).length ≠ 0
      have hmem : r ∈ recs.filter (fun r' => bucketOf r'.timestamp = bucketOf r.timestamp) :=
        List.mem_filter.mpr ⟨hr, by simp⟩
      unfold bucketVals
      rw [List.length_map]
      intro hlen
      exact List.ne_nil_of_mem hmem (List.length_eq_zero.mp hlen)

/-- Witness for the amended C6 on the concrete two-record batch. -/
theorem temporal_bucket_range_witness :
    recsC6 ≠ [] ∧
    (((temporalStats recsC6).map (fun st => st.bucket) =
      (List.range ((bucketOf (maxTime recsC6) - bucketOf (minTime recsC6)) / 60 + 1)).map
        (fun i => bucketOf (minTime recsC6) + 60 * i)) ∧
    (∀ st ∈ temporalStats recsC6,
      st.count = (recsC6.filter (fun r => bucketOf r.timestamp = st.bucket)).length ∧
      (st.count = 0 → st.mean = none ∧ st.stdSq = none)) ∧
    (∀ r ∈ recsC6, ∃ st ∈ temporalStats recsC6,
      st.bucket = bucketOf r.timestamp ∧ st.count ≠ 0)) :=
  ⟨by decide, temporal_bucket_range recsC6 (by decide)⟩
